import Mathlib

/-
Verification of the job-lease lifecycle of the pdf-merge worker.

The definitions below are a shallow embedding of:
  - src/utils/dependencies.py  (GracefulShutdownHandler, Reason)
  - src/vq/jobs_manager.py     (JobsSystemHeartbeat, JobsSystemManager.get_job)
  - src/run_job.py             (run_with_jobs_system job loop)

Network calls, threads and logging are modelled by explicit event values and
state passing; each definition mirrors the branch structure of the Python it
embeds, with a comment naming the source lines.
-/

namespace PdfMerge

/-- Embeds `Reason` (src/utils/dependencies.py lines 6-8). -/
inductive Reason
  | SYS_INTERRUPT
  | JOB_CANCELLED
deriving DecidableEq, Repr

/-- Embeds the mutable state of `GracefulShutdownHandler`
(src/utils/dependencies.py lines 11-15): `event` is the threading.Event,
`reason` and `message` the two attributes. -/
structure GracefulShutdownHandler where
  event : Bool
  reason : Option Reason
  message : String
deriving DecidableEq, Repr

/-- `GracefulShutdownHandler.__init__` (lines 12-15): event clear, reason None,
message empty. -/
def GracefulShutdownHandler.init : GracefulShutdownHandler :=
  { event := false, reason := none, message := "" }

/-- The `interrupted` property (lines 17-19): `self.event.is_set()`. -/
def GracefulShutdownHandler.interrupted (h : GracefulShutdownHandler) : Bool :=
  h.event

/-- `shutdown(reason, message)` (lines 21-31): if `self.reason is not None`
the call only logs a warning and returns with the state unchanged; otherwise
it sets the event, the reason and the message. -/
def GracefulShutdownHandler.shutdown (h : GracefulShutdownHandler)
    (r : Reason) (m : String) : GracefulShutdownHandler :=
  if h.reason.isSome then
    h
  else
    { event := true, reason := some r, message := m }

/-- `reset()` (lines 33-36): clears the event, the reason and the message. -/
def GracefulShutdownHandler.reset (_h : GracefulShutdownHandler) :
    GracefulShutdownHandler :=
  { event := false, reason := none, message := "" }

/-- The possible results of one `_heartbeat()` call
(src/vq/jobs_manager.py lines 134-152): the service answered
"in progress", answered "cancelled", answered some other status (only
logged), or the HTTP call raised. -/
inductive TickOutcome
  | inProgress
  | cancelled
  | otherStatus
  | error
deriving DecidableEq, Repr

/-- The state of a `JobsSystemHeartbeat` thread while `_loop` runs
(src/vq/jobs_manager.py lines 105-107 and the local `error_count` of
`_loop`, line 155). `stopFlag` is `self._stop`, `running` is `self.running`. -/
structure HBState where
  stopFlag : Bool
  running : Bool
  errorCount : Nat
  handler : GracefulShutdownHandler
deriving DecidableEq, Repr

/-- Heartbeat state right after `start()` (lines 130-132, 174-177):
not stopped, running, `error_count = 0`, handler untouched. -/
def freshHB : HBState :=
  { stopFlag := false, running := true, errorCount := 0,
    handler := GracefulShutdownHandler.init }

/-- What one iteration of `_loop` does with its tick. -/
inductive StepResult
  | cont (s : HBState)
  | exitNormal (s : HBState)
  | exitFatal (s : HBState)
deriving DecidableEq, Repr

/-- One iteration of `JobsSystemHeartbeat._loop` (lines 156-172), the sleep
elided: if `self._stop`, set `running := false` and return; otherwise run
`_heartbeat()` with outcome `o` — a non-raising call resets `error_count`
to 0 (line 164), with the "cancelled" status additionally signalling the
shutdown handler and calling `self.stop()` (lines 146-150); a raising call
increments `error_count` and, once it reaches 5, sets `running := false`
and re-raises (lines 165-172). -/
def hbStep (s : HBState) (o : TickOutcome) : StepResult :=
  if s.stopFlag then
    StepResult.exitNormal { s with running := false }
  else
    match o with
    | TickOutcome.inProgress => StepResult.cont { s with errorCount := 0 }
    | TickOutcome.cancelled =>
        StepResult.cont
          { s with
            errorCount := 0, stopFlag := true,
            handler := s.handler.shutdown Reason.JOB_CANCELLED
                         "cancelled by jobs system" }
    | TickOutcome.otherStatus => StepResult.cont { s with errorCount := 0 }
    | TickOutcome.error =>
        let ec := s.errorCount + 1
        if 5 ≤ ec then
          StepResult.exitFatal { s with errorCount := ec, running := false }
        else
          StepResult.cont { s with errorCount := ec }

/-- How `_loop` ended on a finite schedule of tick outcomes: returned
normally after observing `_stop`, raised after 5 consecutive failures, or
is still looping when the schedule runs out. -/
inductive LoopResult
  | normalExit (s : HBState)
  | fatalExit (s : HBState)
  | stillRunning (s : HBState)
deriving DecidableEq, Repr

/-- `JobsSystemHeartbeat._loop` (lines 154-172) run over a finite schedule of
heartbeat outcomes, one per tick. -/
def hbLoop (s : HBState) : List TickOutcome → LoopResult
  | [] =>
      if s.stopFlag then LoopResult.normalExit { s with running := false }
      else LoopResult.stillRunning s
  | o :: rest =>
      match hbStep s o with
      | StepResult.cont s' => hbLoop s' rest
      | StepResult.exitNormal s' => LoopResult.normalExit s'
      | StepResult.exitFatal s' => LoopResult.fatalExit s'

/-- Number of failed (exception-raising) heartbeat calls in a schedule of
tick outcomes. -/
def countErrors : List TickOutcome → Nat
  | [] => 0
  | TickOutcome.error :: rest => countErrors rest + 1
  | _ :: rest => countErrors rest

/-- The two exceptions `wait_to_finish` can raise
(src/vq/jobs_manager.py lines 182-189): the `ValueError` for calling it
before `stop()`, and the `TimeoutError` for a thread still alive after the
join timeout. -/
inductive WaitError
  | usageError
  | stuckThread
deriving DecidableEq, Repr

/-- The observable state of the renewal thread when `wait_to_finish` runs:
whether `self._thread` is set, whether it is alive at the first check, and
after how many time units it terminates (`none` = never). -/
structure ThreadModel where
  threadExists : Bool
  alive : Bool
  terminationTime : Option Nat
deriving DecidableEq, Repr

/-- `JobsSystemHeartbeat.wait_to_finish` (lines 182-189): raise `ValueError`
if `self._stop` is not set; otherwise, if the thread exists and is alive,
`join(timeout=self.interval * 10)` and raise `TimeoutError` if it is still
alive afterwards, i.e. if it does not terminate within `interval * 10`. -/
def wait_to_finish (interval : Nat) (stopFlag : Bool) (t : ThreadModel) :
    Except WaitError Unit :=
  if !stopFlag then
    Except.error WaitError.usageError
  else if t.threadExists && t.alive then
    match t.terminationTime with
    | some tt =>
        if tt ≤ interval * 10 then Except.ok () else Except.error WaitError.stuckThread
    | none => Except.error WaitError.stuckThread
  else
    Except.ok ()

/-- The renewal thread as `wait_to_finish` sees it after `_loop` ended with
the given result: a loop that returned or raised has already terminated its
thread, while a loop that is still iterating leaves the thread alive with no
termination in sight. -/
def threadAfter : LoopResult → ThreadModel
  | LoopResult.normalExit _ =>
      { threadExists := true, alive := false, terminationTime := some 0 }
  | LoopResult.fatalExit _ =>
      { threadExists := true, alive := false, terminationTime := some 0 }
  | LoopResult.stillRunning _ =>
      { threadExists := true, alive := true, terminationTime := none }

/-- The session epilogue around `wait_to_finish`
(src/vq/jobs_manager.py lines 316-320): the call is wrapped in
`try/except Exception`, which logs the error and continues. The first
component says whether an exception propagates out of `get_job` (the
`except` clause never re-raises), the second what was caught and logged. -/
def sessionWaitStep (interval : Nat) (t : ThreadModel) :
    Bool × Option WaitError :=
  match wait_to_finish interval true t with
  | Except.ok _ => (false, none)
  | Except.error e => (false, some e)

/-- The terminal notification a finished lease session sends to the jobs
system: `__job_complete`, `__job_failed` with its error message, or no call
at all. -/
inductive Disposition
  | completeCall
  | returnCall (msg : String)
  | noCall
deriving DecidableEq, Repr

/-- The disposition branch of `JobsSystemManager.get_job`'s `finally` block
(src/vq/jobs_manager.py lines 302-312), with `error` the message captured
from a work-function exception (lines 294-300, `none` when the body returned
normally): if the handler is interrupted and the reason is not
`JOB_CANCELLED`, call `__job_failed` with the handler's message; if it is
`JOB_CANCELLED`, make no call; otherwise call `__job_failed` with the
captured error, or `__job_complete` when there was none. -/
def resolveDisposition (h : GracefulShutdownHandler) (error : Option String) :
    Disposition :=
  if h.interrupted then
    if h.reason ≠ some Reason.JOB_CANCELLED then
      Disposition.returnCall h.message
    else
      Disposition.noCall
  else
    match error with
    | some e => Disposition.returnCall e
    | none => Disposition.completeCall

/-- Number of `__job_complete` calls a disposition performs. -/
def completeCalls : Disposition → Nat
  | Disposition.completeCall => 1
  | _ => 0

/-- Number of `__job_failed` (return-endpoint) calls a disposition performs. -/
def returnCalls : Disposition → Nat
  | Disposition.returnCall _ => 1
  | _ => 0

/-- The externally observable events of `get_job`'s `finally` block, in
order: the queue-service calls, the `stop()` request to the heartbeat, and
the join performed by `wait_to_finish`. -/
inductive QEvent
  | completeCall
  | returnCall (msg : String)
  | stopRequested
  | joined
deriving DecidableEq, Repr

/-- The ordered event trace of `get_job`'s `finally` block
(src/vq/jobs_manager.py lines 301-321): first the disposition branch
(lines 302-312) issues its queue-service call, then `self.heartbeat.stop()`
(line 314), then `self.heartbeat.wait_to_finish()` joins the thread
(line 317). -/
def sessionFinalize (h : GracefulShutdownHandler) (error : Option String) :
    List QEvent :=
  (if h.interrupted then
    if h.reason ≠ some Reason.JOB_CANCELLED then
      [QEvent.returnCall h.message]
    else
      []
  else
    match error with
    | some e => [QEvent.returnCall e]
    | none => [QEvent.completeCall])
  ++ [QEvent.stopRequested, QEvent.joined]

/-- One iteration of the worker job loop in `run_with_jobs_system`
(src/run_job.py lines 92-149), seen from the failure counter: `get_job`
raised (`pollError`), yielded no job (`noJob`), yielded a job whose run
returned (`jobSuccess`), or yielded a job whose run raised (`jobError`). -/
inductive IterOutcome
  | pollError
  | noJob
  | jobSuccess
  | jobError
deriving DecidableEq, Repr

/-- How the worker loop ended on a finite schedule of iteration outcomes. -/
inductive WorkerExit
  | noJobExit
  | failureBudget
  | nonContinuousDone
  | stillLooping (errorCount : Nat)
deriving DecidableEq, Repr

/-- The `while True` loop of `run_with_jobs_system`
(src/run_job.py lines 92-149) with the shutdown handler never signalled,
driven by a finite schedule of iteration outcomes. Per iteration:
`pollError` lands in the outer `except` (lines 135-144), which returns if
`error_count >= 5` before incrementing, and in non-continuous mode then
breaks; `noJob` runs line 103 (`error_count = 0`) and either sleeps and
continues (continuous) or returns (lines 105-112); `jobSuccess` runs
line 103 and reaches `if not continuous: break` (line 146); `jobError`
runs line 103 before `run_job` raises, so its inner `except`
(lines 121-134) sees `error_count = 0`, returns in non-continuous mode,
and otherwise increments to 1. -/
def workerLoop (continuous : Bool) (errorCount : Nat) :
    List IterOutcome → WorkerExit
  | [] => WorkerExit.stillLooping errorCount
  | o :: rest =>
      match o with
      | IterOutcome.pollError =>
          if 5 ≤ errorCount then
            WorkerExit.failureBudget
          else if !continuous then
            WorkerExit.nonContinuousDone
          else
            workerLoop continuous (errorCount + 1) rest
      | IterOutcome.noJob =>
          if continuous then workerLoop continuous 0 rest
          else WorkerExit.noJobExit
      | IterOutcome.jobSuccess =>
          if !continuous then WorkerExit.nonContinuousDone
          else workerLoop continuous 0 rest
      | IterOutcome.jobError =>
          let ec0 := 0
          if !continuous then
            WorkerExit.nonContinuousDone
          else if 5 ≤ ec0 then
            WorkerExit.failureBudget
          else
            workerLoop continuous (ec0 + 1) rest

/-- What the poll at the top of `get_job` produced: a 204 (no job) or a
granted claim. -/
inductive PollResult
  | noJob
  | claimed
deriving DecidableEq, Repr

/-- The `JobsSystemManager` state relevant to the one-session guard:
whether `self.heartbeat` is currently set (not `None`). -/
structure ManagerState where
  heartbeatActive : Bool
deriving DecidableEq, Repr

/-- Entry and claim phase of `JobsSystemManager.get_job`
(src/vq/jobs_manager.py lines 250-288): raise `ValueError` if
`self.heartbeat is not None` (lines 251-252); on a 204 yield `None` without
touching `self.heartbeat` (lines 263-266); on a claim construct and start a
heartbeat (lines 279-288). Returns the new manager state and whether a
claim was taken. -/
def get_job_open (m : ManagerState) (p : PollResult) :
    Except String (ManagerState × Bool) :=
  if m.heartbeatActive then
    Except.error "Tried to get more than one job in one worker"
  else
    match p with
    | PollResult.noJob => Except.ok (m, false)
    | PollResult.claimed => Except.ok ({ m with heartbeatActive := true }, true)

/-- End of a claimed `get_job` session (src/vq/jobs_manager.py line 321):
`self.heartbeat = None`. A no-job call never reaches the `finally` block
that owns a heartbeat, so the state is unchanged. -/
def get_job_close (m : ManagerState) (claimed : Bool) : ManagerState :=
  if claimed then { m with heartbeatActive := false } else m

/-- C5 (confirmed): once `shutdown` has been called with reason `r` and
message `m`, any later `shutdown` call — in particular one with a different
reason `r'` — leaves the stored event flag, reason and message unchanged
(and, being a total function, raises nothing); a first call on a fresh
handler stores exactly `r` and `m` and sets the flag; and after an explicit
`reset` a new reason can be stored again, so the first reason wins only
until a reset. -/
theorem shutdown_first_reason_wins (s : GracefulShutdownHandler)
    (r r' : Reason) (m m' : String) :
    ((s.shutdown r m).shutdown r' m' = s.shutdown r m) ∧
    ((GracefulShutdownHandler.init.shutdown r m).event = true) ∧
    ((GracefulShutdownHandler.init.shutdown r m).reason = some r) ∧
    ((GracefulShutdownHandler.init.shutdown r m).message = m) ∧
    ((((s.shutdown r m).reset).shutdown r' m').reason = some r') := by
  unfold GracefulShutdownHandler.shutdown GracefulShutdownHandler.reset
    GracefulShutdownHandler.init
  rcases s with ⟨e, rs, ms⟩
  cases rs <;> simp

/-- Witness for C5: signalling `SYS_INTERRUPT` first and `JOB_CANCELLED`
second leaves the interrupt in place, and only a reset lets the second
reason through. -/
theorem shutdown_first_reason_wins_witness :
    (((GracefulShutdownHandler.init.shutdown Reason.SYS_INTERRUPT
          "sigterm").shutdown Reason.JOB_CANCELLED "cancel") =
      GracefulShutdownHandler.init.shutdown Reason.SYS_INTERRUPT "sigterm") ∧
    ((GracefulShutdownHandler.init.shutdown Reason.SYS_INTERRUPT
        "sigterm").event = true) ∧
    ((GracefulShutdownHandler.init.shutdown Reason.SYS_INTERRUPT
        "sigterm").reason = some Reason.SYS_INTERRUPT) ∧
    ((GracefulShutdownHandler.init.shutdown Reason.SYS_INTERRUPT
        "sigterm").message = "sigterm") ∧
    ((((GracefulShutdownHandler.init.shutdown Reason.SYS_INTERRUPT
          "sigterm").reset).shutdown Reason.JOB_CANCELLED "cancel").reason =
      some Reason.JOB_CANCELLED) :=
  shutdown_first_reason_wins GracefulShutdownHandler.init Reason.SYS_INTERRUPT
    Reason.JOB_CANCELLED "sigterm" "cancel"

/-- C6 (confirmed): a session whose handler ends the work function signalled
with reason `JOB_CANCELLED` issues zero calls to the complete endpoint and
zero calls to the return endpoint, whatever error the work body captured. -/
theorem cancelled_session_no_calls (h : GracefulShutdownHandler)
    (err : Option String) (hi : h.interrupted = true)
    (hr : h.reason = some Reason.JOB_CANCELLED) :
    completeCalls (resolveDisposition h err) = 0 ∧
    returnCalls (resolveDisposition h err) = 0 := by
  unfold resolveDisposition GracefulShutdownHandler.interrupted at *
  simp [hi, hr, completeCalls, returnCalls]

/-- Witness for C6: a handler signalled `JOB_CANCELLED` by the heartbeat
leads to no complete call and no return call. -/
theorem cancelled_session_no_calls_witness :
    completeCalls (resolveDisposition
      (GracefulShutdownHandler.init.shutdown Reason.JOB_CANCELLED
        "cancelled by jobs system") none) = 0 ∧
    returnCalls (resolveDisposition
      (GracefulShutdownHandler.init.shutdown Reason.JOB_CANCELLED
        "cancelled by jobs system") none) = 0 :=
  cancelled_session_no_calls _ none (by decide) (by decide)

/-- C7 (confirmed): a session whose handler ends the work function signalled
with any reason other than `JOB_CANCELLED` issues exactly one call to the
return endpoint, carrying the handler's stored shutdown message, and no
call to the complete endpoint. -/
theorem interrupted_session_returns (h : GracefulShutdownHandler)
    (err : Option String) (r : Reason) (hi : h.interrupted = true)
    (hr : h.reason = some r) (hne : r ≠ Reason.JOB_CANCELLED) :
    resolveDisposition h err = Disposition.returnCall h.message ∧
    returnCalls (resolveDisposition h err) = 1 ∧
    completeCalls (resolveDisposition h err) = 0 := by
  have hne' : ¬ h.reason = some Reason.JOB_CANCELLED := by
    rw [hr]; intro hc; exact hne (Option.some.inj hc)
  unfold resolveDisposition GracefulShutdownHandler.interrupted at *
  simp [hi, hne', returnCalls, completeCalls]

/-- Witness for C7: a handler signalled `SYS_INTERRUPT` leads to one return
call with the interrupt message and no complete call. -/
theorem interrupted_session_returns_witness :
    resolveDisposition
        (GracefulShutdownHandler.init.shutdown Reason.SYS_INTERRUPT
          "interrupted by host with SIGTERM (15)") (some "work failed") =
      Disposition.returnCall "interrupted by host with SIGTERM (15)" ∧
    returnCalls (resolveDisposition
        (GracefulShutdownHandler.init.shutdown Reason.SYS_INTERRUPT
          "interrupted by host with SIGTERM (15)") (some "work failed")) = 1 ∧
    completeCalls (resolveDisposition
        (GracefulShutdownHandler.init.shutdown Reason.SYS_INTERRUPT
          "interrupted by host with SIGTERM (15)") (some "work failed")) = 0 :=
  interrupted_session_returns _ (some "work failed") Reason.SYS_INTERRUPT
    (by decide) (by decide) (by decide)

/-- C10 (confirmed): when the work function raised (a captured error text is
present) and the handler is signalled by resolution time, the signal wins:
the disposition is `noCall` for reason `JOB_CANCELLED` and a return call
carrying the handler's message for every other reason — the captured
exception text is discarded either way. -/
theorem signal_precedence_over_exception (h : GracefulShutdownHandler)
    (e : String) (hi : h.interrupted = true) :
    resolveDisposition h (some e) =
      (if h.reason = some Reason.JOB_CANCELLED then Disposition.noCall
       else Disposition.returnCall h.message) := by
  unfold resolveDisposition GracefulShutdownHandler.interrupted at *
  by_cases hr : h.reason = some Reason.JOB_CANCELLED <;> simp [hi, hr]

/-- Witness for C10: with the handler signalled `SYS_INTERRUPT` with message
"stop now" and the work function failed with "boom", the session returns the
task with "stop now", not "boom". -/
theorem signal_precedence_over_exception_witness :
    resolveDisposition
        (GracefulShutdownHandler.init.shutdown Reason.SYS_INTERRUPT "stop now")
        (some "boom") = Disposition.returnCall "stop now" := by
  have h := signal_precedence_over_exception
    (GracefulShutdownHandler.init.shutdown Reason.SYS_INTERRUPT "stop now")
    "boom" (by decide)
  simpa using h

/-- C8 (confirmed): calling `wait_to_finish` before `stop()` was requested
raises the usage error, and when stop was requested but the thread is still
alive and does not terminate within the bounded timeout of ten heartbeat
intervals, `wait_to_finish` raises the stuck-thread fault instead of
returning silently. -/
theorem wait_to_finish_spec (interval : Nat) (t : ThreadModel) :
    (wait_to_finish interval false t = Except.error WaitError.usageError) ∧
    (t.threadExists = true → t.alive = true →
      (∀ tt, t.terminationTime = some tt → interval * 10 < tt) →
      wait_to_finish interval true t = Except.error WaitError.stuckThread) := by
  constructor
  · rfl
  · intro hex hal hterm
    unfold wait_to_finish
    simp only [hex, hal, Bool.not_true, Bool.and_self, if_true, if_false]
    cases htt : t.terminationTime with
    | none => simp
    | some tt =>
        have hlt := hterm tt htt
        simp [Nat.not_le.mpr hlt]

/-- Witness for C8: with a heartbeat interval of 10 and a thread that never
terminates, the pre-stop call raises the usage error and the post-stop call
raises the stuck-thread fault. -/
theorem wait_to_finish_spec_witness :
    (wait_to_finish 10 false
        { threadExists := true, alive := true, terminationTime := none } =
      Except.error WaitError.usageError) ∧
    (wait_to_finish 10 true
        { threadExists := true, alive := true, terminationTime := none } =
      Except.error WaitError.stuckThread) :=
  ⟨(wait_to_finish_spec 10
      { threadExists := true, alive := true, terminationTime := none }).1,
   (wait_to_finish_spec 10
      { threadExists := true, alive := true, terminationTime := none }).2
     rfl rfl (fun _ h => nomatch h)⟩

/-- C9 (confirmed): `get_job` raises the usage error whenever a previous
session's heartbeat is still set; any session that did open (with or
without a claim) leaves the heartbeat cleared once closed, and `get_job`
succeeds again from a cleared state. -/
theorem single_session_guard :
    (∀ m p, m.heartbeatActive = true →
        get_job_open m p =
          Except.error "Tried to get more than one job in one worker") ∧
    (∀ m p m' c, get_job_open m p = Except.ok (m', c) →
        (get_job_close m' c).heartbeatActive = false) ∧
    (∀ m p, m.heartbeatActive = false → (get_job_open m p).isOk = true) := by
  refine ⟨?_, ?_, ?_⟩
  · intro m p hm
    unfold get_job_open
    simp [hm]
  · intro m p m' c h
    unfold get_job_open at h
    by_cases hm : m.heartbeatActive
    · simp [hm] at h
    · simp only [hm, if_false, Bool.false_eq_true, if_neg] at h
      cases p with
      | noJob =>
          simp only [Except.ok.injEq, Prod.mk.injEq] at h
          obtain ⟨hm', hc⟩ := h
          subst hm'; subst hc
          simp [get_job_close, hm]
      | claimed =>
          simp only [Except.ok.injEq, Prod.mk.injEq] at h
          obtain ⟨hm', hc⟩ := h
          subst hm'; subst hc
          simp [get_job_close]
  · intro m p hm
    unfold get_job_open
    cases p <;> simp [hm, Except.isOk, Except.toBool]

/-- Witness for C9: a second acquisition while one session is open errors;
a claimed session closes with the heartbeat cleared; and acquisition from a
cleared state succeeds. -/
theorem single_session_guard_witness :
    (get_job_open { heartbeatActive := true } PollResult.claimed =
      Except.error "Tried to get more than one job in one worker") ∧
    ((get_job_close { heartbeatActive := true } true).heartbeatActive =
      false) ∧
    ((get_job_open { heartbeatActive := false } PollResult.claimed).isOk =
      true) :=
  ⟨single_session_guard.1 { heartbeatActive := true } PollResult.claimed rfl,
   single_session_guard.2.1 { heartbeatActive := false } PollResult.claimed
     { heartbeatActive := true } true rfl,
   single_session_guard.2.2 { heartbeatActive := false } PollResult.claimed
     rfl⟩

/-- C1 counterexample: with the handler never signalled and the work
function succeeding, the finalize trace of `get_job` is the complete call
strictly followed by the heartbeat stop request and then the join — the
renewer is not stopped and joined before the terminal disposition is
reported to the queue service; it is stopped and joined after it. -/
theorem session_stop_ordering_cex :
    sessionFinalize GracefulShutdownHandler.init none =
      [QEvent.completeCall, QEvent.stopRequested, QEvent.joined] ∧
    List.indexOf QEvent.completeCall
        (sessionFinalize GracefulShutdownHandler.init none) <
      List.indexOf QEvent.stopRequested
        (sessionFinalize GracefulShutdownHandler.init none) ∧
    List.indexOf QEvent.stopRequested
        (sessionFinalize GracefulShutdownHandler.init none) <
      List.indexOf QEvent.joined
        (sessionFinalize GracefulShutdownHandler.init none) := by
  decide

/-- C1 amended (proved): for every handler state and captured work error,
the finalize trace is the disposition's queue-service call (at most one
event, a complete or a return call) followed first by the heartbeat stop
request and then by the join: the renewer is stopped and joined immediately
after the terminal disposition is reported and before the session is
released, not before the report. -/
theorem session_disposition_then_stop_join (h : GracefulShutdownHandler)
    (err : Option String) :
    ∃ ds : List QEvent,
      sessionFinalize h err = ds ++ [QEvent.stopRequested, QEvent.joined] ∧
      ds.length ≤ 1 ∧
      (∀ e ∈ ds, e = QEvent.completeCall ∨ ∃ m, e = QEvent.returnCall m) := by
  unfold sessionFinalize
  by_cases hi : h.interrupted = true
  · by_cases hr : h.reason = some Reason.JOB_CANCELLED
    · exact ⟨[], by simp [hi, hr], by simp, by simp⟩
    · exact ⟨[QEvent.returnCall h.message], by simp [hi, hr], by simp,
        by simp⟩
  · cases err with
    | none =>
        exact ⟨[QEvent.completeCall],
          by simp [Bool.not_eq_true] at hi; simp [hi], by simp, by simp⟩
    | some e =>
        exact ⟨[QEvent.returnCall e],
          by simp [Bool.not_eq_true] at hi; simp [hi], by simp, by simp⟩

/-- Witness for C1's amended theorem at the successful-work trace. -/
theorem session_disposition_then_stop_join_witness :
    ∃ ds : List QEvent,
      sessionFinalize GracefulShutdownHandler.init none =
        ds ++ [QEvent.stopRequested, QEvent.joined] ∧
      ds.length ≤ 1 ∧
      (∀ e ∈ ds, e = QEvent.completeCall ∨ ∃ m, e = QEvent.returnCall m) :=
  session_disposition_then_stop_join GracefulShutdownHandler.init none

/-- C2 counterexample: drive a fresh renewer through 5 consecutive failed
ticks, so the loop records its fatal condition and the renewal thread dies
with it; calling `wait_to_finish` afterwards returns `ok` — the recorded
fatal error is not re-raised — and the session epilogue around the call
propagates nothing either, so the lease session's result never surfaces
the renewer fault. -/
theorem renewer_error_surfacing_cex :
    hbLoop freshHB (List.replicate 5 TickOutcome.error) =
      LoopResult.fatalExit
        { stopFlag := false, running := false, errorCount := 5,
          handler := GracefulShutdownHandler.init } ∧
    wait_to_finish 10 true
        (threadAfter (hbLoop freshHB (List.replicate 5 TickOutcome.error))) =
      Except.ok () ∧
    (sessionWaitStep 10
        (threadAfter
          (hbLoop freshHB (List.replicate 5 TickOutcome.error)))).1 =
      false :=
  ⟨by decide, rfl, rfl⟩

/-- C2 amended (proved): a fatal renewer error is never re-raised by
`wait_to_finish`: the raise only terminates the renewal thread, after which
`wait_to_finish` returns normally because the thread is no longer alive;
and the session catches every exception `wait_to_finish` does raise,
logging it instead of surfacing it, so nothing from the renewer reaches
the session's result. -/
theorem renewer_error_not_surfaced (s : HBState) (interval : Nat)
    (t : ThreadModel) :
    wait_to_finish interval true (threadAfter (LoopResult.fatalExit s)) =
      Except.ok () ∧
    (sessionWaitStep interval t).1 = false := by
  constructor
  · rfl
  · unfold sessionWaitStep
    rcases hw : wait_to_finish interval true t <;> simp [hw]

/-- Witness for C2's amended theorem: the loop state left by 5 consecutive
failures, an interval of 10 and a never-terminating thread model. -/
theorem renewer_error_not_surfaced_witness :
    wait_to_finish 10 true
        (threadAfter (LoopResult.fatalExit
          { stopFlag := false, running := false, errorCount := 5,
            handler := GracefulShutdownHandler.init })) = Except.ok () ∧
    (sessionWaitStep 10
        { threadExists := true, alive := true, terminationTime := none }).1 =
      false :=
  renewer_error_not_surfaced
    { stopFlag := false, running := false, errorCount := 5,
      handler := GracefulShutdownHandler.init } 10
    { threadExists := true, alive := true, terminationTime := none }

/-- C3 counterexample: in continuous mode, 5 consecutive poll failures from
a fresh counter leave the worker loop still running with the counter at 5 —
the loop does not terminate after 5 consecutive failures. -/
theorem worker_budget_cex :
    workerLoop true 0 (List.replicate 5 IterOutcome.pollError) =
      WorkerExit.stillLooping 5 := by
  decide

/-- C3 amended (proved): poll errors and job-run errors do share the single
counter, but the counter is reset at the start of every iteration whose
poll succeeded — before the job body runs — so a job-run error always
leaves the counter at exactly 1 and can never exhaust the budget by
itself; in continuous mode the loop takes the failure-budget exit on the
6th consecutive poll failure, not the 5th; and a no-job or successful
iteration resets the counter to 0. -/
theorem worker_budget_amended :
    (∀ rest, workerLoop true 0
        (List.replicate 6 IterOutcome.pollError ++ rest) =
      WorkerExit.failureBudget) ∧
    (∀ ec rest, ec ≤ 4 →
        workerLoop true ec (IterOutcome.pollError :: rest) =
          workerLoop true (ec + 1) rest) ∧
    (∀ rest, workerLoop true 5 (IterOutcome.pollError :: rest) =
        WorkerExit.failureBudget) ∧
    (∀ ec rest, workerLoop true ec (IterOutcome.noJob :: rest) =
        workerLoop true 0 rest) ∧
    (∀ ec rest, workerLoop true ec (IterOutcome.jobSuccess :: rest) =
        workerLoop true 0 rest) ∧
    (∀ ec rest, workerLoop true ec (IterOutcome.jobError :: rest) =
        workerLoop true 1 rest) := by
  refine ⟨?_, ?_, ?_, ?_, ?_, ?_⟩
  · intro rest
    simp [List.replicate, workerLoop]
  · intro ec rest hec
    have h5 : ¬ 5 ≤ ec := by omega
    simp [workerLoop, h5]
  · intro rest
    simp [workerLoop]
  · intro ec rest
    simp [workerLoop]
  · intro ec rest
    simp [workerLoop]
  · intro ec rest
    simp [workerLoop]

/-- Witness for C3's amended theorem: one poll failure from a counter of 0
continues the loop with the counter at 1. -/
theorem worker_budget_amended_witness :
    workerLoop true 0 (IterOutcome.pollError :: []) =
      workerLoop true (0 + 1) [] :=
  worker_budget_amended.2.1 0 [] (by decide)

/-- Invariant behind C4: from any loop state whose counter is at most 4 (as
every reachable state is), a fatal exit carries a counter of exactly 5 and
needs at least 5 failed ticks in the schedule. -/
theorem hbLoop_fatal_count (ticks : List TickOutcome) :
    ∀ s s' : HBState, s.errorCount ≤ 4 →
      hbLoop s ticks = LoopResult.fatalExit s' →
      s'.errorCount = 5 ∧ 5 ≤ s.errorCount + countErrors ticks := by
  induction ticks with
  | nil =>
      intro s s' _ h
      unfold hbLoop at h
      split at h <;> simp_all
  | cons o rest ih =>
      intro s s' hle h
      simp only [hbLoop] at h
      cases hstep : hbStep s o with
      | cont s₂ =>
          rw [hstep] at h
          unfold hbStep at hstep
          by_cases hstop : s.stopFlag = true
          · simp [hstop] at hstep
          · simp only [hstop, if_false, Bool.false_eq_true] at hstep
            cases o with
            | inProgress =>
                simp only [StepResult.cont.injEq] at hstep
                subst hstep
                obtain ⟨h1, h2⟩ := ih _ s' (by simp) h
                refine ⟨h1, ?_⟩
                simp only [countErrors] at h2 ⊢
                omega
            | cancelled =>
                simp only [StepResult.cont.injEq] at hstep
                subst hstep
                obtain ⟨h1, h2⟩ := ih _ s' (by simp) h
                refine ⟨h1, ?_⟩
                simp only [countErrors] at h2 ⊢
                omega
            | otherStatus =>
                simp only [StepResult.cont.injEq] at hstep
                subst hstep
                obtain ⟨h1, h2⟩ := ih _ s' (by simp) h
                refine ⟨h1, ?_⟩
                simp only [countErrors] at h2 ⊢
                omega
            | error =>
                by_cases h5 : 5 ≤ s.errorCount + 1
                · simp [h5] at hstep
                · simp only [h5, if_false, StepResult.cont.injEq] at hstep
                  subst hstep
                  obtain ⟨h1, h2⟩ := ih _ s' (by simp; omega) h
                  refine ⟨h1, ?_⟩
                  simp only [countErrors] at h2 ⊢
                  omega
      | exitNormal s₂ =>
          rw [hstep] at h
          exact absurd h (by simp)
      | exitFatal s₂ =>
          rw [hstep] at h
          have hs : s₂ = s' := by
            simpa using h
          subst hs
          unfold hbStep at hstep
          by_cases hstop : s.stopFlag = true
          · simp [hstop] at hstep
          · simp only [hstop, if_false, Bool.false_eq_true] at hstep
            cases o with
            | inProgress => simp at hstep
            | cancelled => simp at hstep
            | otherStatus => simp at hstep
            | error =>
                by_cases h5 : 5 ≤ s.errorCount + 1
                · simp only [h5, if_true, StepResult.exitFatal.injEq] at hstep
                  subst hstep
                  simp only [countErrors]
                  constructor
                  · show s.errorCount + 1 = 5
                    omega
                  · omega
                · simp [h5] at hstep

/-- C4 (confirmed): any heartbeat call that returns without raising resets
the consecutive-failure counter to 0; a failed call from a counter below 4
continues the loop with the counter incremented; a failed call from a
counter of exactly 4 — the 5th consecutive failure — exits the loop
fatally; and from a fresh renewer every fatal exit carries a counter of
exactly 5 and requires at least 5 failed ticks, so the fatal condition is
raised after exactly 5 consecutive failures and never after fewer. -/
theorem heartbeat_counter_spec :
    (∀ s o s₂, hbStep s o = StepResult.cont s₂ → o ≠ TickOutcome.error →
        s₂.errorCount = 0) ∧
    (∀ s, s.stopFlag = false → s.errorCount < 4 →
        hbStep s TickOutcome.error =
          StepResult.cont { s with errorCount := s.errorCount + 1 }) ∧
    (∀ s, s.stopFlag = false → s.errorCount = 4 →
        hbStep s TickOutcome.error =
          StepResult.exitFatal { s with errorCount := 5, running := false }) ∧
    (∀ ticks s', hbLoop freshHB ticks = LoopResult.fatalExit s' →
        s'.errorCount = 5 ∧ 5 ≤ countErrors ticks) := by
  refine ⟨?_, ?_, ?_, ?_⟩
  · intro s o s₂ h hne
    unfold hbStep at h
    by_cases hstop : s.stopFlag = true
    · simp [hstop] at h
    · simp only [hstop, if_false, Bool.false_eq_true] at h
      cases o with
      | inProgress => simp only [StepResult.cont.injEq] at h; subst h; rfl
      | cancelled => simp only [StepResult.cont.injEq] at h; subst h; rfl
      | otherStatus => simp only [StepResult.cont.injEq] at h; subst h; rfl
      | error => exact absurd rfl hne
  · intro s hstop hlt
    have h5 : ¬ 5 ≤ s.errorCount + 1 := by omega
    unfold hbStep
    simp [hstop, h5]
  · intro s hstop h4
    have h5 : 5 ≤ s.errorCount + 1 := by omega
    unfold hbStep
    simp only [hstop, if_false, Bool.false_eq_true, h5, if_true]
    rw [h4]
  · intro ticks s' h
    have hfresh : freshHB.errorCount ≤ 4 := by
      simp [freshHB]
    obtain ⟨h1, h2⟩ := hbLoop_fatal_count ticks freshHB s' hfresh h
    refine ⟨h1, ?_⟩
    simpa [freshHB] using h2

/-- Witness for C4: a successful tick from a fresh renewer leaves the
counter at 0; a failed tick from a counter of 3 continues with the counter
at 4; a failed tick from a counter of 4 exits fatally with the counter at
5; and the 5-failure schedule produces a fatal exit whose counter is 5. -/
theorem heartbeat_counter_spec_witness :
    (freshHB.errorCount = 0) ∧
    (hbStep { freshHB with errorCount := 3 } TickOutcome.error =
      StepResult.cont { freshHB with errorCount := 3 + 1 }) ∧
    (hbStep { freshHB with errorCount := 4 } TickOutcome.error =
      StepResult.exitFatal { freshHB with errorCount := 5, running := false }) ∧
    (({ stopFlag := false, running := false, errorCount := 5,
        handler := GracefulShutdownHandler.init } : HBState).errorCount = 5 ∧
      5 ≤ countErrors (List.replicate 5 TickOutcome.error)) :=
  ⟨heartbeat_counter_spec.1 freshHB TickOutcome.inProgress freshHB (by decide)
     (by decide),
   heartbeat_counter_spec.2.1 { freshHB with errorCount := 3 } rfl (by decide),
   heartbeat_counter_spec.2.2.1 { freshHB with errorCount := 4 } rfl rfl,
   heartbeat_counter_spec.2.2.2 (List.replicate 5 TickOutcome.error)
     { stopFlag := false, running := false, errorCount := 5,
       handler := GracefulShutdownHandler.init } (by decide)⟩

end PdfMerge
